import Mathlib

/-!
# Retail Data Pipeline — verification of the cleaning and star-schema stages

Shallow embedding of the core transformations of the retail ETL pipeline:

* `InventoryCleaner.clean_data` and `InventoryCleaner.run`
  (source: `src/CleanInventory.py`),
* `SalesCleaner.clean_data` (source: `src/CleanSales.py`),
* `StarSchemaBuilder.build_dim_product` and
  `StarSchemaBuilder.build_fact_sales` (source: `src/BuildStarSchema.py`).

Tables are lists of row records; a missing cell (pandas `NaN`) is `none`.
External primitives (CSV I/O, pandas numeric/date parsing) are modelled by
their outcomes: a raw sales `Quantity` cell is `Option (Option Int)` —
outer `none` is a missing cell, inner `none` a value `pd.to_numeric`
cannot parse; likewise for `Date` with `pd.to_datetime`.
-/

/-- Python `str.strip()`: remove leading and trailing whitespace. -/
def pyStrip (s : String) : String :=
  String.mk
    (((s.toList.dropWhile Char.isWhitespace).reverse.dropWhile
        Char.isWhitespace).reverse)

/-- Python `str.upper()` (inputs are ASCII). -/
def pyUpper (s : String) : String :=
  String.mk (s.toList.map Char.toUpper)

/-- Python `str.split(sep)` on a character list: split at every occurrence of
`sep`, keeping empty fields, as `"a:b".split(":") = ["a","b"]`,
`"".split(":") = [""]`. This is the semantics of the pandas
`Series.str.split(":")` element-wise split used in `clean_data`. -/
def splitCharList (sep : Char) : List Char → List (List Char)
  | [] => [[]]
  | c :: cs =>
    let r := splitCharList sep cs
    if c = sep then [] :: r
    else
      match r with
      | x :: xs => (c :: x) :: xs
      | [] => [[c]]

/-- Python `s.split(sep)` for strings. -/
def pySplit (sep : Char) (s : String) : List String :=
  (splitCharList sep s.toList).map String.mk

/-- A calendar date as produced by `pd.to_datetime`: pandas `Timestamp`s are
nanosecond-based and only represent years 1677–2262, so every date the
parsing primitive can return carries those bounds (out-of-range inputs
coerce to `NaT`, i.e. the parse fails). -/
structure Date where
  year : Nat
  month : Nat
  day : Nat
  valid : 1677 ≤ year ∧ year ≤ 2262 ∧ 1 ≤ month ∧ month ≤ 12 ∧ 1 ≤ day ∧ day ≤ 31

/-- A row of the raw inventory CSV (`Inventory_raw.csv`); `none` is `NaN`. -/
structure RawInvRow where
  sku : Option String
  design : Option String
  category : Option String
  stock : Option Int
  size : Option String
  color : Option String
deriving DecidableEq

/-- A raw inventory row that survives `dropna(how="all")` and
`dropna(subset=["SKU Code", "Design No.", "Category"])`: the three mandatory
text fields are present. -/
structure RetainedInvRow where
  sku : String
  design : String
  category : String
  stock : Option Int
  size : Option String
  color : Option String
deriving DecidableEq

/-- A row of the cleaned inventory table. `categoryName` is `none` when the
expanded split had no second field for this row (pandas pads with `NaN`). -/
structure CleanInvRow where
  sku : String
  design : String
  stock : Int
  brandCode : String
  categoryName : Option String
  size : Option String
  color : Option String
deriving DecidableEq

namespace InventoryCleaner

/-- `df.dropna(how="all")`: is every cell of the row missing? -/
def rowAllNa (r : RawInvRow) : Bool :=
  r.sku.isNone && r.design.isNone && r.category.isNone &&
  r.stock.isNone && r.size.isNone && r.color.isNone

/-- Steps 1–2 of `clean_data`: drop fully-empty rows, then drop rows missing
any of `SKU Code`, `Design No.`, `Category`. -/
def retainRow (r : RawInvRow) : Option RetainedInvRow :=
  if rowAllNa r then none
  else
    match r.sku, r.design, r.category with
    | some s, some d, some c => some ⟨s, d, c, r.stock, r.size, r.color⟩
    | _, _, _ => none

/-- The rows of the raw table that `clean_data` retains. -/
def retainedRows (rows : List RawInvRow) : List RetainedInvRow :=
  rows.filterMap retainRow

/-- Step 4 of `clean_data`: `df["Stock"].clip(lower=0).fillna(0)` —
`clip` keeps `NaN`, then `fillna` replaces it by 0. -/
def cleanStock (st : Option Int) : Int :=
  (st.map (fun v => max v 0)).getD 0

/-- Steps 3–5 of `clean_data` on one retained row: normalize the SKU
(strip + upper), clean the stock, and split `Category` on `":"` into
`BrandCode` (field 0, stripped) and `CategoryName` (field 1, stripped;
`NaN` when the row has no second field). -/
def mkCleanRow (r : RetainedInvRow) : CleanInvRow :=
  let parts := pySplit ':' r.category
  { sku := pyUpper (pyStrip r.sku)
    design := r.design
    stock := cleanStock r.stock
    brandCode := pyStrip (parts.headD "")
    categoryName := (parts.get? 1).map pyStrip
    size := r.size
    color := r.color }

/-- Errors the inventory stage can raise: the `ValueError` of
`check_required_columns` (carrying the missing column names), and the
pandas `KeyError` raised by `split_col[1]` when the expanded split
produced no column `1`. -/
inductive InvError where
  | schemaError (missing : List String)
  | keyError (col : Nat)
deriving DecidableEq

/-- Number of fields of the element-wise split of `Category`; the expanded
frame `split_col` has column `1` iff some row has at least 2 fields. -/
def maxSplitWidth (rows : List RetainedInvRow) : Nat :=
  (rows.map (fun r => (pySplit ':' r.category).length)).foldr max 0

/-- `InventoryCleaner.clean_data`: drop empty/incomplete rows, normalize
SKU and Stock, split Category. Accessing `split_col[1]` raises a
`KeyError` when no retained row's split has a second field (duplicate
SKUs are only logged, so step 6 does not change the rows). -/
def clean_data (rows : List RawInvRow) : Except InvError (List CleanInvRow) :=
  if maxSplitWidth (retainedRows rows) < 2 then .error (.keyError 1)
  else .ok ((retainedRows rows).map mkCleanRow)

/-- The required raw-inventory columns checked by `run`. -/
def required_cols : List String := ["SKU Code", "Design No.", "Category", "Stock"]

/-- `missing = [col for col in required_cols if col not in df.columns]`. -/
def missing_cols (cols required : List String) : List String :=
  required.filter (fun c => !cols.contains c)

/-- `check_required_columns`: raise a `ValueError` naming the missing
columns when any required column is absent. -/
def check_required_columns (cols required : List String) : Except InvError Unit :=
  if (missing_cols cols required).isEmpty then .ok ()
  else .error (.schemaError (missing_cols cols required))

/-- `InventoryCleaner.run` without the I/O: check the schema of the loaded
table, then clean it (`validate_types`, `verification_data` and
`save_data` only log / write the already-computed table). `cols` is the
column list of the loaded CSV. -/
def run (cols : List String) (rows : List RawInvRow) :
    Except InvError (List CleanInvRow) :=
  match check_required_columns cols required_cols with
  | .error e => .error e
  | .ok _ => clean_data rows

end InventoryCleaner

/-- A row of the raw sales CSV (`Sales_raw.csv`). Outer `none` is a missing
cell (`NaN`); for `quantity` and `date` the inner `none` is a present cell
that `pd.to_numeric` / `pd.to_datetime` cannot parse (coerced to
`NaN`/`NaT`). -/
structure RawSalesRow where
  sku : Option String
  quantity : Option (Option Int)
  date : Option (Option Date)

/-- A raw sales row surviving steps 1–3 of `SalesCleaner.clean_data`:
all three cells present and the date parsed. `quantity` is the result of
`pd.to_numeric(..., errors="coerce")`, still `none` if unparseable. -/
structure RetainedSalesRow where
  sku : String
  quantity : Option Int
  date : Date

/-- A row of the cleaned sales table. -/
structure CleanSalesRow where
  sku : String
  quantity : Int
  date : Date

namespace SalesCleaner

/-- Steps 1–3 of `clean_data`: `dropna(how="all")`,
`dropna(subset=["SKU Code", "Quantity", "Date"])`, then coerce `Date` and
drop rows whose date did not parse. (A fully-empty row is also dropped by
the subset dropna, and a row kept here has all three cells present.) -/
def retainRow (r : RawSalesRow) : Option RetainedSalesRow :=
  match r.sku, r.quantity, r.date with
  | some s, some q, some (some d) => some ⟨s, q, d⟩
  | _, _, _ => none

/-- Step 4 of `clean_data`: `Quantity` is coerced (`errors="coerce"`), then
`fillna(0).astype(int)` — an unparseable value becomes 0. -/
def coerceQuantity (q : Option Int) : Int := q.getD 0

/-- `Quantity.clip(lower=0)` on one value. -/
def clipQuantity (q : Int) : Int := max q 0

/-- Steps 1–5 of `clean_data`: drop empty/incomplete/undated rows, coerce
`Quantity` (`fillna(0).astype(int)` after the coercion), and normalize the
SKU (strip + upper). -/
def coercedRows (rows : List RawSalesRow) : List CleanSalesRow :=
  (rows.filterMap retainRow).map fun r =>
    ({ sku := pyUpper (pyStrip r.sku)
       quantity := coerceQuantity r.quantity
       date := r.date } : CleanSalesRow)

/-- Steps 1–6 of `clean_data` (everything before the referential filter):
the coerced rows, with the quantities clipped at 0 — the clip runs only
when some quantity is negative, exactly as in the source. -/
def prefilterRows (rows : List RawSalesRow) : List CleanSalesRow :=
  if (coercedRows rows).any (fun r => r.quantity < 0) then
    (coercedRows rows).map (fun r => { r with quantity := clipQuantity r.quantity })
  else coercedRows rows

/-- The SKU set used by the referential filter:
`set(df_inventory["SKU Code"].dropna())` (clean-inventory SKUs are never
`NaN`, so `dropna` keeps every value; list membership models set
membership). -/
def valid_skus (df_inventory : List CleanInvRow) : List String :=
  df_inventory.map (·.sku)

/-- `SalesCleaner.clean_data`: the steps above, then the referential filter —
keep only rows whose SKU is in the set of SKUs of the clean inventory
table, and report how many rows that dropped (the logged count). Returns
the clean table and the dropped count. -/
def clean_data (df_sales : List RawSalesRow) (df_inventory : List CleanInvRow) :
    List CleanSalesRow × Nat :=
  ((prefilterRows df_sales).filter
      (fun r => (valid_skus df_inventory).contains r.sku),
   (prefilterRows df_sales).length -
     ((prefilterRows df_sales).filter
       (fun r => (valid_skus df_inventory).contains r.sku)).length)

end SalesCleaner

/-- A row of the `DimProduct` table (column order of the source: the
surrogate key inserted at position 0, then the selected columns). -/
structure DimProductRow where
  productKey : Nat
  sku : String
  design : String
  size : Option String
  color : Option String
  brandCode : String
  categoryName : Option String

/-- A row of the `FactSales` table; `productKey` is `none` on a left-join
miss (pandas `NaN`). -/
structure FactRow where
  dateKey : Nat
  productKey : Option Nat
  quantity : Int
deriving DecidableEq

namespace StarSchemaBuilder

/-- `build_dim_product`: select the descriptive columns of the clean
inventory table and insert `ProductKey = range(1, len+1)` at position 0. -/
def build_dim_product (df_inventory : List CleanInvRow) : List DimProductRow :=
  df_inventory.enum.map fun p =>
    { productKey := p.1 + 1
      sku := p.2.sku
      design := p.2.design
      size := p.2.size
      color := p.2.color
      brandCode := p.2.brandCode
      categoryName := p.2.categoryName }

/-- `df_fact["DateKey"] = df_fact["Date"].dt.strftime("%Y%m%d").astype(int)`:
pandas dates have 4-digit years (1677–2262), so the formatted string is
`YYYYMMDD` and its integer value is `y*10000 + m*100 + d`. -/
def dateKeyOf (d : Date) : Nat := d.year * 10000 + d.month * 100 + d.day

/-- The fact rows a single clean-sales row contributes under
`merge(dim_product[["ProductKey", "SKU Code"]], on="SKU Code", how="left")`:
one row per matching dimension row, or a single row with an absent
`ProductKey` when no dimension row matches. -/
def factRowsFor (dim_product : List DimProductRow) (s : CleanSalesRow) :
    List FactRow :=
  let ms := dim_product.filter (fun d => d.sku == s.sku)
  if ms.isEmpty then [{ dateKey := dateKeyOf s.date, productKey := none, quantity := s.quantity }]
  else ms.map fun d =>
    { dateKey := dateKeyOf s.date, productKey := some d.productKey, quantity := s.quantity }

/-- `build_fact_sales`: left-join the clean sales to `DimProduct` on the SKU,
derive `DateKey`, and project to `{DateKey, ProductKey, Quantity}`. -/
def build_fact_sales (df_sales : List CleanSalesRow)
    (dim_product : List DimProductRow) : List FactRow :=
  df_sales.flatMap (factRowsFor dim_product)

end StarSchemaBuilder

/-! ## Helper lemmas -/

theorem splitCharList_ne_nil (sep : Char) (l : List Char) :
    splitCharList sep l ≠ [] := by
  induction l with
  | nil => simp [splitCharList]
  | cons c cs ih =>
    simp only [splitCharList]
    by_cases hc : c = sep
    · simp [hc]
    · simp only [hc, if_false]
      cases hr : splitCharList sep cs with
      | nil => exact absurd hr ih
      | cons x xs => simp

theorem splitCharList_headD (sep : Char) (l : List Char) :
    (splitCharList sep l).headD [] = l.takeWhile (· != sep) := by
  induction l with
  | nil => simp [splitCharList]
  | cons c cs ih =>
    simp only [splitCharList]
    by_cases hc : c = sep
    · simp [hc, List.takeWhile]
    · simp only [hc, if_false]
      cases hr : splitCharList sep cs with
      | nil => exact absurd hr (splitCharList_ne_nil sep cs)
      | cons x xs =>
        rw [hr] at ih
        simp only [List.headD] at ih
        have hb : (c != sep) = true := by simp [hc]
        simp [List.takeWhile, hb, ih]

theorem splitCharList_of_not_mem (sep : Char) (l : List Char)
    (h : sep ∉ l) : splitCharList sep l = [l] := by
  induction l with
  | nil => simp [splitCharList]
  | cons c cs ih =>
    simp only [List.mem_cons, not_or] at h
    simp only [splitCharList, Ne.symm h.1, if_false, ih h.2]

theorem splitCharList_get?_one (sep : Char) (l : List Char) (h : sep ∈ l) :
    (splitCharList sep l).get? 1 =
      some (((l.dropWhile (· != sep)).tail).takeWhile (· != sep)) := by
  induction l with
  | nil => simp at h
  | cons c cs ih =>
    simp only [splitCharList]
    by_cases hc : c = sep
    · subst hc
      cases hr : splitCharList c cs with
      | nil => exact absurd hr (splitCharList_ne_nil c cs)
      | cons x xs =>
        have hx : x = cs.takeWhile (· != c) := by
          have := splitCharList_headD c cs
          rw [hr] at this
          simpa using this
        simp [List.dropWhile, hx]
    · have hmem : sep ∈ cs := by
        rcases List.mem_cons.mp h with h1 | h2
        · exact absurd h1.symm hc
        · exact h2
      simp only [hc, if_false]
      cases hr : splitCharList sep cs with
      | nil => exact absurd hr (splitCharList_ne_nil sep cs)
      | cons x xs =>
        rw [hr] at ih
        have h0 : xs.get? 0
            = some (((cs.dropWhile (· != sep)).tail).takeWhile (· != sep)) := by
          simpa [List.get?] using ih hmem
        have hb : (c != sep) = true := by simp [hc]
        rw [List.get?_eq_getElem?] at h0
        simp [List.dropWhile, List.get?, hb, h0]

theorem headD_map_mk (l : List (List Char)) (hne : l ≠ []) :
    (l.map String.mk).headD "" = String.mk (l.headD []) := by
  cases l with
  | nil => exact absurd rfl hne
  | cons a as => rfl

theorem foldr_max_le_one (L : List Nat) (h : ∀ x ∈ L, x ≤ 1) :
    L.foldr max 0 ≤ 1 := by
  induction L with
  | nil => simp
  | cons a l ih =>
    simp only [List.foldr_cons, max_le_iff]
    exact ⟨h a (by simp), ih fun x hx => h x (List.mem_cons_of_mem a hx)⟩

theorem filter_length_split {α : Type} (l : List α) (p q : α → Bool)
    (hpq : ∀ a, q a = !p a) :
    (l.filter p).length + (l.filter q).length = l.length := by
  induction l with
  | nil => simp
  | cons a l ih =>
    by_cases hp : p a
    · simp [List.filter, hp, hpq a, ← ih]
      omega
    · simp only [Bool.not_eq_true] at hp
      simp [List.filter, hp, hpq a, ← ih]
      omega

theorem enumFrom_map_key {α : Type} (l : List α) (s : Nat) :
    (l.enumFrom s).map (fun p => p.1 + 1) = List.range' (s + 1) l.length := by
  induction l generalizing s with
  | nil => simp [List.range']
  | cons a l ih => simp [List.enumFrom, List.range', ih (s + 1)]

theorem clean_data_ok (rows : List RawInvRow) (out : List CleanInvRow)
    (h : InventoryCleaner.clean_data rows = .ok out) :
    out = (InventoryCleaner.retainedRows rows).map InventoryCleaner.mkCleanRow := by
  unfold InventoryCleaner.clean_data at h
  split at h
  · cases h
  · cases h
    rfl

theorem mem_prefilterRows_nonneg (rows : List RawSalesRow) (r : CleanSalesRow)
    (h : r ∈ SalesCleaner.prefilterRows rows) : 0 ≤ r.quantity := by
  unfold SalesCleaner.prefilterRows at h
  split at h
  · rcases List.mem_map.mp h with ⟨r0, _, hr0⟩
    subst hr0
    simp only [SalesCleaner.clipQuantity]
    exact le_max_right _ _
  · rename_i hany
    have hall : ∀ x ∈ SalesCleaner.coercedRows rows, 0 ≤ x.quantity := by
      simpa using hany
    exact hall r h

theorem factRowsFor_dateKey (dim : List DimProductRow) (s : CleanSalesRow)
    (f : FactRow) (h : f ∈ StarSchemaBuilder.factRowsFor dim s) :
    f.dateKey = StarSchemaBuilder.dateKeyOf s.date := by
  simp only [StarSchemaBuilder.factRowsFor] at h
  split at h
  · rcases List.mem_singleton.mp h with rfl
    rfl
  · rcases List.mem_map.mp h with ⟨d, _, hd⟩
    subst hd
    rfl

/-! ## Claim theorems -/

/-- **C6.** For every clean inventory table of `N` rows,
`StarSchemaBuilder.build_dim_product` assigns `ProductKey` as exactly the
sequence `1..N` in the existing row order of the input table — dense,
1-based, no gaps, no repeats. -/
theorem C6_product_key_dense (df_inventory : List CleanInvRow) :
    (StarSchemaBuilder.build_dim_product df_inventory).map DimProductRow.productKey
      = List.range' 1 df_inventory.length := by
  unfold StarSchemaBuilder.build_dim_product
  rw [List.map_map]
  simpa [List.enum] using enumFrom_map_key df_inventory 0

def scenarioDDate : Date := ⟨2024, 3, 5, by omega⟩

def scenarioDSale : CleanSalesRow :=
  { sku := "SKU001", quantity := 10, date := scenarioDDate }

def scenarioDDim : DimProductRow :=
  { productKey := 7, sku := "SKU001", design := "D1", size := none,
    color := none, brandCode := "BR1", categoryName := some "Shirts" }

def scenarioDFact : FactRow :=
  { dateKey := 20240305, productKey := some 7, quantity := 10 }

/-- **C7.** For every fact row produced by
`StarSchemaBuilder.build_fact_sales`, `DateKey` is an 8-digit integer equal
to the sale date formatted as `YYYYMMDD`; in particular the clean sales row
`SKU001, 10, 2024-03-05` joined against a `DimProduct` mapping `SKU001` to
`ProductKey 7` yields the fact row
`{DateKey: 20240305, ProductKey: 7, Quantity: 10}`. -/
theorem C7_date_key_format :
    (∀ (df_sales : List CleanSalesRow) (dim : List DimProductRow) (f : FactRow),
        f ∈ StarSchemaBuilder.build_fact_sales df_sales dim →
        (∃ s ∈ df_sales, f.dateKey = StarSchemaBuilder.dateKeyOf s.date) ∧
        10000000 ≤ f.dateKey ∧ f.dateKey ≤ 99999999) ∧
    (∀ d : Date, StarSchemaBuilder.dateKeyOf d
        = d.year * 10000 + d.month * 100 + d.day) ∧
    StarSchemaBuilder.build_fact_sales [scenarioDSale] [scenarioDDim]
      = [scenarioDFact] := by
  refine ⟨?_, fun d => rfl, rfl⟩
  intro df_sales dim f hf
  rcases List.mem_flatMap.mp hf with ⟨s, hs, hfs⟩
  have hdk := factRowsFor_dateKey dim s f hfs
  rcases s.date.valid with ⟨h1, h2, h3, h4, h5, h6⟩
  unfold StarSchemaBuilder.dateKeyOf at hdk
  exact ⟨⟨s, hs, hdk ▸ rfl⟩, by omega, by omega⟩

/-- Witness for C7 at the scenario-D input. -/
theorem C7_date_key_format_witness :
    (∃ s ∈ [scenarioDSale],
        scenarioDFact.dateKey = StarSchemaBuilder.dateKeyOf s.date) ∧
    10000000 ≤ scenarioDFact.dateKey ∧ scenarioDFact.dateKey ≤ 99999999 :=
  C7_date_key_format.1 [scenarioDSale] [scenarioDDim] scenarioDFact
    (by rw [show StarSchemaBuilder.build_fact_sales [scenarioDSale] [scenarioDDim]
          = [scenarioDFact] from rfl]
        exact List.mem_singleton.mpr rfl)

/-- **C8.** For every clean sales row whose `SkuCode` does not match any
`SkuCode` in the `dim_product` table, `StarSchemaBuilder.build_fact_sales`
still emits a fact row for it, carrying a null/absent `ProductKey`
(left-join semantics: join misses are retained, not dropped). -/
theorem C8_join_miss_retained (df_sales : List CleanSalesRow)
    (dim : List DimProductRow) (s : CleanSalesRow) (hs : s ∈ df_sales)
    (hmiss : ∀ d ∈ dim, d.sku ≠ s.sku) :
    ({ dateKey := StarSchemaBuilder.dateKeyOf s.date, productKey := none,
       quantity := s.quantity } : FactRow)
      ∈ StarSchemaBuilder.build_fact_sales df_sales dim := by
  apply List.mem_flatMap.mpr
  refine ⟨s, hs, ?_⟩
  simp only [StarSchemaBuilder.factRowsFor]
  have hms : dim.filter (fun d => d.sku == s.sku) = [] := by
    rw [List.filter_eq_nil_iff]
    intro d hd
    simpa using hmiss d hd
  simp [hms]

def missSale : CleanSalesRow :=
  { sku := "SKU999", quantity := 10, date := ⟨2024, 3, 5, by omega⟩ }

/-- Witness for C8: the sale of `SKU999` has no match in a dimension table
holding only `SKU001`, yet its fact row (with an absent key) is emitted. -/
theorem C8_join_miss_retained_witness :
    ({ dateKey := StarSchemaBuilder.dateKeyOf missSale.date, productKey := none,
       quantity := missSale.quantity } : FactRow)
      ∈ StarSchemaBuilder.build_fact_sales [missSale] [scenarioDDim] :=
  C8_join_miss_retained [missSale] [scenarioDDim] missSale
    (List.mem_singleton.mpr rfl)
    (fun d hd => by
      rcases List.mem_singleton.mp hd with rfl
      decide)

/-- **C9.** Every clean inventory row has `Stock ≥ 0` and every clean sales
row has `Quantity ≥ 0`; in `SalesCleaner`, `Quantity` values that cannot be
parsed as numbers default to 0 (`coerceQuantity none = 0`) and negative
values are clamped to 0 (`clipQuantity`). -/
theorem C9_nonnegativity :
    (∀ rows out, InventoryCleaner.clean_data rows = .ok out →
        ∀ r ∈ out, 0 ≤ r.stock) ∧
    (∀ df_sales df_inventory r,
        r ∈ (SalesCleaner.clean_data df_sales df_inventory).1 →
        0 ≤ r.quantity) ∧
    SalesCleaner.coerceQuantity none = 0 ∧
    (∀ q : Int, q < 0 → SalesCleaner.clipQuantity q = 0) := by
  refine ⟨?_, ?_, rfl, ?_⟩
  · intro rows out h r hr
    rw [clean_data_ok rows out h] at hr
    rcases List.mem_map.mp hr with ⟨r0, _, hr0⟩
    subst hr0
    show 0 ≤ InventoryCleaner.cleanStock r0.stock
    unfold InventoryCleaner.cleanStock
    cases r0.stock with
    | none => simp
    | some v => simp
  · intro df_sales df_inventory r hr
    unfold SalesCleaner.clean_data at hr
    exact mem_prefilterRows_nonneg _ _ (List.mem_of_mem_filter hr)
  · intro q hq
    unfold SalesCleaner.clipQuantity
    exact max_eq_right (le_of_lt hq)

def scenarioARaw : RawInvRow :=
  ⟨some "SKU001", some "D1", some "BR1:Shirts", some (-5), some "M", some "Red"⟩

def scenarioAClean : CleanInvRow :=
  ⟨"SKU001", "D1", 0, "BR1", some "Shirts", some "M", some "Red"⟩

def wSaleDate : Date := ⟨2024, 3, 5, by omega⟩

def wSaleRaw : RawSalesRow := ⟨some "sku001", some (some 10), some (some wSaleDate)⟩

def wSaleClean : CleanSalesRow := ⟨"SKU001", 10, wSaleDate⟩

/-- Witness for C9 at concrete inputs: the scenario-A inventory row cleans
to stock 0 (≥ 0), a concrete cleaned sales row has quantity ≥ 0, and a
negative quantity is clamped to 0. -/
theorem C9_nonnegativity_witness :
    0 ≤ scenarioAClean.stock ∧ 0 ≤ wSaleClean.quantity ∧
    SalesCleaner.clipQuantity (-3) = 0 :=
  ⟨C9_nonnegativity.1 [scenarioARaw] [scenarioAClean] (by rfl) scenarioAClean
      (List.mem_singleton.mpr rfl),
   C9_nonnegativity.2.1 [wSaleRaw] [scenarioAClean] wSaleClean
      (by rw [show (SalesCleaner.clean_data [wSaleRaw] [scenarioAClean]).1
            = [wSaleClean] by rfl]
          exact List.mem_singleton.mpr rfl),
   C9_nonnegativity.2.2.2 (-3) (by decide)⟩

/-- **C1.** Every row of the clean sales table has a `SkuCode` that is in
the set of `SkuCode` values of the clean inventory table; the reported
dropped count is exactly the number of (otherwise clean) sales rows whose
`SkuCode` is not in that set, and kept + dropped add up to the rows that
reached the referential filter. -/
theorem C1_referential_filter (df_sales : List RawSalesRow)
    (df_inventory : List CleanInvRow) :
    (∀ r ∈ (SalesCleaner.clean_data df_sales df_inventory).1,
        r.sku ∈ df_inventory.map CleanInvRow.sku) ∧
    (SalesCleaner.clean_data df_sales df_inventory).2
      = ((SalesCleaner.prefilterRows df_sales).filter
          (fun r => !(SalesCleaner.valid_skus df_inventory).contains r.sku)).length ∧
    (SalesCleaner.clean_data df_sales df_inventory).1.length
        + (SalesCleaner.clean_data df_sales df_inventory).2
      = (SalesCleaner.prefilterRows df_sales).length := by
  have hsplit := filter_length_split (SalesCleaner.prefilterRows df_sales)
    (fun r => (SalesCleaner.valid_skus df_inventory).contains r.sku)
    (fun r => !(SalesCleaner.valid_skus df_inventory).contains r.sku)
    (fun a => rfl)
  refine ⟨?_, ?_, ?_⟩
  · intro r hr
    unfold SalesCleaner.clean_data at hr
    have hmem := (List.mem_filter.mp hr).2
    simpa [SalesCleaner.valid_skus] using hmem
  · simp only [SalesCleaner.clean_data]
    omega
  · simp only [SalesCleaner.clean_data]
    omega

/-- Witness for C1: a concrete cleaned sales row's SKU is in the concrete
inventory's SKU set. -/
theorem C1_referential_filter_witness :
    wSaleClean.sku ∈ [scenarioAClean].map CleanInvRow.sku :=
  (C1_referential_filter [wSaleRaw] [scenarioAClean]).1 wSaleClean
    (by rw [show (SalesCleaner.clean_data [wSaleRaw] [scenarioAClean]).1
          = [wSaleClean] by rfl]
        exact List.mem_singleton.mpr rfl)

/-- **C4.** When a required inventory column is absent, `InventoryCleaner`'s
run fails with the schema error naming exactly the missing columns (the
given missing column is among the named ones), and no clean table is
produced — the result is an error, so cleaning and saving are never
reached. -/
theorem C4_schema_error (cols : List String) (rows : List RawInvRow)
    (c : String) (hc : c ∈ InventoryCleaner.required_cols) (hmiss : c ∉ cols) :
    InventoryCleaner.run cols rows
      = .error (.schemaError
          (InventoryCleaner.missing_cols cols InventoryCleaner.required_cols)) ∧
    c ∈ InventoryCleaner.missing_cols cols InventoryCleaner.required_cols := by
  have hcmem : c ∈ InventoryCleaner.missing_cols cols
      InventoryCleaner.required_cols := by
    unfold InventoryCleaner.missing_cols
    rw [List.mem_filter]
    exact ⟨hc, by simpa using hmiss⟩
  refine ⟨?_, hcmem⟩
  have hne : (InventoryCleaner.missing_cols cols
      InventoryCleaner.required_cols).isEmpty = false := by
    simpa using List.ne_nil_of_mem hcmem
  have hchk : InventoryCleaner.check_required_columns cols
        InventoryCleaner.required_cols
      = .error (.schemaError
          (InventoryCleaner.missing_cols cols InventoryCleaner.required_cols)) := by
    unfold InventoryCleaner.check_required_columns
    rw [hne]
    rfl
  unfold InventoryCleaner.run
  rw [hchk]

/-- Witness for C4 (scenario B): the raw inventory lacking `Stock` makes the
run fail with a schema error naming `Stock`. -/
theorem C4_schema_error_witness :
    InventoryCleaner.run ["SKU Code", "Design No.", "Category"] []
      = .error (.schemaError
          (InventoryCleaner.missing_cols ["SKU Code", "Design No.", "Category"]
            InventoryCleaner.required_cols)) ∧
    "Stock" ∈ InventoryCleaner.missing_cols ["SKU Code", "Design No.", "Category"]
        InventoryCleaner.required_cols :=
  C4_schema_error ["SKU Code", "Design No.", "Category"] [] "Stock"
    (by decide) (by decide)

/-- **C5.** `InventoryCleaner.clean_data` normalizes `Stock` by clamping
negative values to 0, treating missing values as 0, and keeping
non-negative values; in particular the raw row
`SKU001, D1, "BR1:Shirts", -5, M, Red` yields the clean row with
`Stock = 0`, `BrandCode = "BR1"`, `CategoryName = "Shirts"`. -/
theorem C5_stock_normalization :
    (∀ r : RetainedInvRow, r.stock = none →
        (InventoryCleaner.mkCleanRow r).stock = 0) ∧
    (∀ (r : RetainedInvRow) (v : Int), r.stock = some v → v < 0 →
        (InventoryCleaner.mkCleanRow r).stock = 0) ∧
    (∀ (r : RetainedInvRow) (v : Int), r.stock = some v → 0 ≤ v →
        (InventoryCleaner.mkCleanRow r).stock = v) ∧
    InventoryCleaner.clean_data [scenarioARaw] = .ok [scenarioAClean] := by
  refine ⟨?_, ?_, ?_, by rfl⟩
  · intro r h
    show InventoryCleaner.cleanStock r.stock = 0
    rw [h]
    rfl
  · intro r v h hv
    show InventoryCleaner.cleanStock r.stock = 0
    rw [h]
    unfold InventoryCleaner.cleanStock
    simp [max_eq_right (le_of_lt hv)]
  · intro r v h hv
    show InventoryCleaner.cleanStock r.stock = v
    rw [h]
    unfold InventoryCleaner.cleanStock
    simp [max_eq_left hv]

def w5na : RetainedInvRow := ⟨"S-1", "D", "B:C", none, none, none⟩

def w5neg : RetainedInvRow := ⟨"S-1", "D", "B:C", some (-5), none, none⟩

def w5pos : RetainedInvRow := ⟨"S-1", "D", "B:C", some 4, none, none⟩

/-- Witness for C5 at concrete rows: missing stock → 0, negative stock → 0,
non-negative stock kept. -/
theorem C5_stock_normalization_witness :
    (InventoryCleaner.mkCleanRow w5na).stock = 0 ∧
    (InventoryCleaner.mkCleanRow w5neg).stock = 0 ∧
    (InventoryCleaner.mkCleanRow w5pos).stock = 4 :=
  ⟨C5_stock_normalization.1 w5na rfl,
   C5_stock_normalization.2.1 w5neg (-5) rfl (by decide),
   C5_stock_normalization.2.2.1 w5pos 4 rfl (by decide)⟩

def c2row1 : RawInvRow := ⟨some "a-1", some "D1", some "B:C", some 1, none, none⟩

def c2row2 : RawInvRow := ⟨some "A-1 ", some "D2", some "B:D", some 2, none, none⟩

/-- Counterexample to C2: two raw inventory rows whose SkuCodes normalize to
the same `"A-1"` are both retained by `clean_data` — the clean table's
SkuCode values are not pairwise distinct, so cleaning does not enforce
one record per normalized SkuCode. -/
theorem C2_counterexample :
    (InventoryCleaner.clean_data [c2row1, c2row2]).map (List.map CleanInvRow.sku)
      = .ok ["A-1", "A-1"] ∧
    ¬ (["A-1", "A-1"] : List String).Nodup := by
  constructor
  · rfl
  · decide

/-- **C2 (amended).** `InventoryCleaner.clean_data` does not deduplicate:
duplicate SkuCodes are only reported, every retained row is kept, and the
clean table's SkuCode column is exactly the normalized SkuCodes of the
retained raw rows — so the SkuCodes are pairwise distinct iff those
normalized values already were. -/
theorem C2_sku_uniqueness_amended (rows : List RawInvRow)
    (out : List CleanInvRow) (h : InventoryCleaner.clean_data rows = .ok out) :
    out.map CleanInvRow.sku
      = (InventoryCleaner.retainedRows rows).map
          (fun r => pyUpper (pyStrip r.sku)) ∧
    ((out.map CleanInvRow.sku).Nodup ↔
      ((InventoryCleaner.retainedRows rows).map
          (fun r => pyUpper (pyStrip r.sku))).Nodup) := by
  have he : out.map CleanInvRow.sku
      = (InventoryCleaner.retainedRows rows).map
          (fun r => pyUpper (pyStrip r.sku)) := by
    rw [clean_data_ok rows out h, List.map_map]
    rfl
  exact ⟨he, by rw [he]⟩

/-- Witness for the amended C2 at the scenario-A table. -/
theorem C2_sku_uniqueness_amended_witness :
    [scenarioAClean].map CleanInvRow.sku
      = (InventoryCleaner.retainedRows [scenarioARaw]).map
          (fun r => pyUpper (pyStrip r.sku)) ∧
    (([scenarioAClean].map CleanInvRow.sku).Nodup ↔
      ((InventoryCleaner.retainedRows [scenarioARaw]).map
          (fun r => pyUpper (pyStrip r.sku))).Nodup) :=
  C2_sku_uniqueness_amended [scenarioARaw] [scenarioAClean] (by rfl)

def c3row : RawInvRow :=
  ⟨some "SKU001", some "D1", some "BR1:Shirts:Extra", some 4, none, none⟩

/-- Counterexample to C3: for `Category = "BR1:Shirts:Extra"` the code
splits on every `':'` (`str.split(":")` has no `maxsplit`), so
`CategoryName` is `"Shirts"` — not `"Shirts:Extra"`, the text to the right
of the first `':'` claimed by C3. -/
theorem C3_counterexample :
    (InventoryCleaner.clean_data [c3row]).map (List.map CleanInvRow.categoryName)
      = .ok [some "Shirts"] ∧
    (some "Shirts" : Option String) ≠ some "Shirts:Extra" := by
  constructor
  · rfl
  · decide

/-- **C3 (amended).** For every retained row, `BrandCode` is the trimmed
text to the left of the first `':'`; but `CategoryName` is the trimmed text
between the first `':'` and the following `':'` (or the end), because the
split is on every `':'` — anything from a second `':'` onward is dropped,
not kept. -/
theorem C3_category_split_amended (rows : List RawInvRow)
    (out : List CleanInvRow) (h : InventoryCleaner.clean_data rows = .ok out) :
    ∀ r ∈ InventoryCleaner.retainedRows rows,
      InventoryCleaner.mkCleanRow r ∈ out ∧
      (InventoryCleaner.mkCleanRow r).brandCode
        = pyStrip (String.mk (r.category.toList.takeWhile (· != ':'))) ∧
      (':' ∈ r.category.toList →
        (InventoryCleaner.mkCleanRow r).categoryName
          = some (pyStrip (String.mk
              (((r.category.toList.dropWhile (· != ':')).tail).takeWhile
                (· != ':'))))) := by
  intro r hr
  refine ⟨?_, ?_, ?_⟩
  · rw [clean_data_ok rows out h]
    exact List.mem_map_of_mem _ hr
  · show pyStrip ((pySplit ':' r.category).headD "") = _
    congr 1
    unfold pySplit
    rw [headD_map_mk _ (splitCharList_ne_nil ':' r.category.toList),
      splitCharList_headD]
  · intro hc
    show ((pySplit ':' r.category).get? 1).map pyStrip = _
    unfold pySplit
    rw [List.get?_map, splitCharList_get?_one ':' r.category.toList hc]
    rfl

def c3ret : RetainedInvRow :=
  ⟨"SKU001", "D1", "BR1:Shirts:Extra", some 4, none, none⟩

def c3clean : CleanInvRow :=
  ⟨"SKU001", "D1", 4, "BR1", some "Shirts", none, none⟩

/-- Witness for the amended C3 at `Category = "BR1:Shirts:Extra"`. -/
theorem C3_category_split_amended_witness :
    InventoryCleaner.mkCleanRow c3ret ∈ [c3clean] ∧
    (InventoryCleaner.mkCleanRow c3ret).brandCode
      = pyStrip (String.mk (c3ret.category.toList.takeWhile (· != ':'))) ∧
    (InventoryCleaner.mkCleanRow c3ret).categoryName
      = some (pyStrip (String.mk
          (((c3ret.category.toList.dropWhile (· != ':')).tail).takeWhile
            (· != ':')))) :=
  have happ := C3_category_split_amended [c3row] [c3clean] (by rfl) c3ret
    (by rw [show InventoryCleaner.retainedRows [c3row] = [c3ret] by rfl]
        exact List.mem_singleton.mpr rfl)
  ⟨happ.1, happ.2.1, happ.2.2 (by decide)⟩

/-- **C10.** For every raw inventory table that, after dropping empty and
incomplete rows, is non-empty and in which no Category value contains a
`':'`, `InventoryCleaner.clean_data` fails with the `KeyError` for the
missing second split column instead of producing a flagged output table. -/
theorem C10_no_colon_failure (rows : List RawInvRow)
    (_hne : InventoryCleaner.retainedRows rows ≠ [])
    (hnc : ∀ r ∈ InventoryCleaner.retainedRows rows, ':' ∉ r.category.toList) :
    InventoryCleaner.clean_data rows = .error (.keyError 1) := by
  have hall : ∀ x ∈ (InventoryCleaner.retainedRows rows).map
      (fun r => (pySplit ':' r.category).length), x ≤ 1 := by
    intro x hx
    rcases List.mem_map.mp hx with ⟨r, hr, hxr⟩
    subst hxr
    unfold pySplit
    rw [splitCharList_of_not_mem ':' _ (hnc r hr)]
    simp
  have hlt : InventoryCleaner.maxSplitWidth
      (InventoryCleaner.retainedRows rows) < 2 := by
    unfold InventoryCleaner.maxSplitWidth
    have := foldr_max_le_one _ hall
    omega
  unfold InventoryCleaner.clean_data
  rw [if_pos hlt]

def c10row : RawInvRow := ⟨some "x-1", some "D", some "nocolon", some 3, none, none⟩

def c10ret : RetainedInvRow := ⟨"x-1", "D", "nocolon", some 3, none, none⟩

/-- Witness for C10: a one-row table whose `Category` has no `':'` makes
`clean_data` raise the `KeyError`. -/
theorem C10_no_colon_failure_witness :
    InventoryCleaner.clean_data [c10row] = .error (.keyError 1) :=
  C10_no_colon_failure [c10row] (by decide)
    (fun r hr => by
      rw [show InventoryCleaner.retainedRows [c10row] = [c10ret] by rfl] at hr
      rcases List.mem_singleton.mp hr with rfl
      decide)
